import Mathlib

/-!
Verification of the NT_TRANSACT command layer (`src/lib/smb/cmd/nt_transact.js`).

The file shallowly embeds the `handle` function of that module together with
the exact semantics of the two third-party wire codec packages it uses:

* `binary.parse(buffer)` (the npm `binary` package): every fixed-width little
  endian word read takes the slice `buffer.slice(offset, min(length, offset+n))`
  (Node `Buffer.slice` clamps, it never throws), decodes whatever bytes are
  actually present by summing `bytes[i] * 256^i`, and advances the cursor by
  the declared width `n` even when the buffer has already been exhausted; a
  `buffer(name, size)` step likewise takes the clamped slice and advances by
  `size`.  Truncated input therefore never fails: missing bytes simply
  contribute nothing to the decoded value.
* `put()` (the npm `put` package): queues chunks and concatenates them on
  `.buffer()`; `wordNle(v)` emits `n` bytes, byte `k` being `(v >> 8k) & 0xff`,
  i.e. `v / 256^k % 256`; `pad(n)` emits `n` zero bytes; `put(buf)` emits the
  bytes of `buf` verbatim.

Repository modules that sit outside the analysed source file
(`lib/utils.js`, `lib/constants.js`, the handler registry) are modelled from
the specification and marked as such in their doc comments.
-/

namespace NtTransact

/-- A Node.js `Buffer` modelled as a list of byte values. -/
abbrev Buffer := List Nat

/-- Node `Buffer.slice(start, stop)`: the bytes with indices in
`[start, stop)`, both bounds clamped to the buffer, empty when
`start ≥ stop`.  Node buffer slicing never reads out of bounds and never
throws for non-negative arguments. -/
def bufSlice (b : Buffer) (start stop : Nat) : Buffer :=
  (b.take stop).drop start

/-- The `binary` package's little-endian unsigned decoder: sums
`bytes[i] * 256^i` over however many bytes the (possibly clamped) slice
actually has.  An empty slice decodes to `0`. -/
def decodeLEu : Buffer → Nat
  | [] => 0
  | byte :: rest => byte + 256 * decodeLEu rest

/-- One `wordNle` read of a `binary.parse` chain at cursor `off`: decode the
clamped slice `[off, off + n)`.  (The cursor advance is static here because
the header layout is fixed, so each field's cursor position is a literal.) -/
def readWordLE (b : Buffer) (off n : Nat) : Nat :=
  decodeLEu (bufSlice b off (off + n))

/-- The decoded NT_TRANSACT request header (the `paramsObj` merged into `msg`
by `_.assign` in the source, lines 72-89).  `function` is the subcommand
function code (also aliased to `msg.subCommandId`). -/
structure NtTransHeader where
  maxSetupCount : Nat
  totalParameterCount : Nat
  totalDataCount : Nat
  maxParameterCount : Nat
  maxDataCount : Nat
  parameterCount : Nat
  parameterOffset : Nat
  dataCount : Nat
  dataOffset : Nat
  setupCount : Nat
  function : Nat
  setup : Buffer
  deriving DecidableEq, Repr

/-- Decode of the request parameter bytes, mirroring the `binary.parse`
chain of lines 72-86: `word8le maxSetupCount` (cursor 0), `skip(2)`
(reserved), eight `word32le` fields at cursors 3,7,…,31, `word8le setupCount`
at 35, `word16le function` at 36, then `buffer('setup', 2*setupCount)` at 38.
Per the `binary` package's semantics every read clamps to the buffer, so a
short buffer decodes (fields past the end become `0`) instead of failing. -/
def decodeNtTransHeader (commandParams : Buffer) : NtTransHeader :=
  let maxSetupCount := readWordLE commandParams 0 1
  let totalParameterCount := readWordLE commandParams 3 4
  let totalDataCount := readWordLE commandParams 7 4
  let maxParameterCount := readWordLE commandParams 11 4
  let maxDataCount := readWordLE commandParams 15 4
  let parameterCount := readWordLE commandParams 19 4
  let parameterOffset := readWordLE commandParams 23 4
  let dataCount := readWordLE commandParams 27 4
  let dataOffset := readWordLE commandParams 31 4
  let setupCount := readWordLE commandParams 35 1
  let fn := readWordLE commandParams 36 2
  let setup := bufSlice commandParams 38 (38 + 2 * setupCount)
  ⟨maxSetupCount, totalParameterCount, totalDataCount, maxParameterCount,
    maxDataCount, parameterCount, parameterOffset, dataCount, dataOffset,
    setupCount, fn, setup⟩

/-- Modelled from the spec: `consts.STATUS_SUCCESS` (`lib/constants.js` is not
part of the analysed source).  Only its distinctness from the other status
codes matters to this layer; the representative value 0 is the wire value. -/
def STATUS_SUCCESS : Nat := 0

/-- Modelled from the spec: `consts.STATUS_NOT_IMPLEMENTED`, the status echoed
for chunked transactions and unregistered subcommands. -/
def STATUS_NOT_IMPLEMENTED : Nat := 0xC0000002

/-- Modelled from the spec: `consts.STATUS_SMB_BAD_COMMAND`, the status the
unknown-subcommand path intends to send. -/
def STATUS_SMB_BAD_COMMAND : Nat := 0x00010002

/-- Modelled from the spec: `utils.EMPTY_BUFFER` (`lib/utils.js` is not part
of the analysed source), the default for an absent `result.setup`. -/
def EMPTY_BUFFER : Buffer := []

/-- Modelled from the spec: `utils.calculatePadLength(offset, alignment)`
(`lib/utils.js` is not part of the analysed source): the number of filler
bytes needed so that `offset + padLength` is a multiple of `alignment`
(always 4 here), with `0 ≤ padLength < alignment`. -/
def calculatePadLength (offset alignment : Nat) : Nat :=
  (alignment - offset % alignment) % alignment

/-- Lines 99-100 of the source: the local parameter-block slice carved out of
the command's data bytes,
`commandData.slice(calculatePadLength(commandDataOffset, 4), msg.parameterCount)`.
Note that the source passes `parameterCount` as the slice END index. -/
def NT_Trans_Parameters (commandData : Buffer) (commandDataOffset parameterCount : Nat) :
    Buffer :=
  bufSlice commandData (calculatePadLength commandDataOffset 4) parameterCount

/-- Lines 101-104 of the source: the local data-block slice.  The running
offset is the pad length, plus `parameterCount`, re-padded to 4; the slice is
`commandData.slice(off, msg.dataCount)` — again with `dataCount` as the END
index. -/
def NT_Trans_Data (commandData : Buffer) (commandDataOffset parameterCount dataCount : Nat) :
    Buffer :=
  let off := calculatePadLength commandDataOffset 4
  let off := off + parameterCount
  let off := off + calculatePadLength off 4
  bufSlice commandData off dataCount

/-- Line 107 of the source: the absolute parameter slice
`msg.buf.slice(msg.parameterOffset, msg.parameterOffset + msg.parameterCount)`
out of the full message buffer. -/
def subParamsSlice (buf : Buffer) (parameterOffset parameterCount : Nat) : Buffer :=
  bufSlice buf parameterOffset (parameterOffset + parameterCount)

/-- Line 108 of the source: the absolute data slice
`msg.buf.slice(msg.dataOffset, msg.dataOffset + msg.dataCount)`. -/
def subDataSlice (buf : Buffer) (dataOffset dataCount : Nat) : Buffer :=
  bufSlice buf dataOffset (dataOffset + dataCount)

/-- One chunk queued on a `put()` builder: a raw buffer (`put`), a
little-endian word of a given byte width (`wordNle` / `word8`), or zero
filler (`pad`). -/
inductive PutWord where
  | raw (b : Buffer)
  | le (bytes value : Nat)
  | pad (bytes : Nat)
  deriving DecidableEq, Repr

/-- Byte emission of `put`'s little-endian word writer: byte `k` is
`(value >> 8k) & 0xff = value / 256^k % 256` (for `word8` the single byte is
`value & 0xff`, which silently truncates values ≥ 256). -/
def leBytes : Nat → Nat → Buffer
  | 0, _ => []
  | n + 1, v => v % 256 :: leBytes n (v / 256)

/-- The bytes one queued chunk contributes to `put().buffer()`. -/
def putWordBytes : PutWord → Buffer
  | PutWord.raw b => b
  | PutWord.le n v => leBytes n v
  | PutWord.pad n => List.replicate n 0

/-- `put().…….buffer()`: the concatenation of the queued chunks. -/
def putBuffer : List PutWord → Buffer
  | [] => []
  | w :: ws => putWordBytes w ++ putBuffer ws

/-- The offsets and paddings of the response assembly (lines 144-157):
`paramsLength = 36 + setup.length`, `dataOffset = SMB_MIN_LENGTH + paramsLength`,
then left to right `pad1`, `subParamsOffset`, `pad2`, `subDataOffset`. -/
structure RespOffsets where
  dataOffset : Nat
  pad1 : Nat
  subParamsOffset : Nat
  pad2 : Nat
  subDataOffset : Nat
  deriving DecidableEq, Repr

/-- Offset computation of lines 144-157.  `SMB_MIN_LENGTH` is an opaque
external protocol constant (`lib/constants.js`), taken as a parameter. -/
def ntTransRespOffsets (SMB_MIN_LENGTH subParamsLength setupLength : Nat) : RespOffsets :=
  let paramsLength := 36 + setupLength
  let dataOffset := SMB_MIN_LENGTH + paramsLength
  let pad1 := calculatePadLength dataOffset 4
  let subParamsOffset := dataOffset + pad1
  let pad2 := calculatePadLength (subParamsOffset + subParamsLength) 4
  let subDataOffset := subParamsOffset + subParamsLength + pad2
  ⟨dataOffset, pad1, subParamsOffset, pad2, subDataOffset⟩

/-- Response assembly of the success path (lines 137-187): the outgoing
parameter buffer (`pad(3)`, eight `word32le` fields, `word8` SetupCount, raw
setup) and the outgoing data buffer (`pad(pad1)`, params verbatim,
`pad(pad2)`, data verbatim), built through the `put` builder. -/
def buildNtTransResponse (SMB_MIN_LENGTH : Nat) (subParams subData setup : Buffer) :
    Buffer × Buffer :=
  let o := ntTransRespOffsets SMB_MIN_LENGTH subParams.length setup.length
  let params := putBuffer
    [PutWord.pad 3,
     PutWord.le 4 subParams.length,
     PutWord.le 4 subData.length,
     PutWord.le 4 subParams.length,
     PutWord.le 4 o.subParamsOffset,
     PutWord.le 4 0,
     PutWord.le 4 subData.length,
     PutWord.le 4 o.subDataOffset,
     PutWord.le 4 0,
     PutWord.le 1 setup.length,
     PutWord.raw setup]
  let data := putBuffer
    [PutWord.pad o.pad1,
     PutWord.raw subParams,
     PutWord.pad o.pad2,
     PutWord.raw subData]
  (params, data)

/-- A subcommand handler's completion value (`result.status`, `result.params`,
`result.data`, optional `result.setup`). -/
structure SubResult where
  status : Nat
  params : Buffer
  data : Buffer
  setup : Option Buffer
  deriving DecidableEq, Repr

/-- A subcommand handler, abstracted as the function from the arguments
`handle` passes it (absolute parameter slice, absolute data slice,
parameterOffset, dataOffset) to the single result it passes its callback. -/
abbrev Handler := Buffer → Buffer → Nat → Nat → SubResult

/-- The value `handle` passes to its callback `cb`. -/
structure SmbResult where
  status : Nat
  params : Buffer
  data : Buffer
  deriving DecidableEq, Repr

/-- How one run of `handle` terminates: `callback r` means `cb` is invoked
exactly once with `r`; `thrown` means a `ReferenceError` escapes `handle`
synchronously and `cb` is never invoked (lines 92-93 reference the undefined
identifiers `self` and `callback`). -/
inductive HandleOutcome where
  | callback (r : SmbResult)
  | thrown
  deriving DecidableEq, Repr

/-- The observable behaviour of one `handle` call: its outcome plus whether a
subcommand handler was invoked. -/
structure HandleRun where
  outcome : HandleOutcome
  handlerInvoked : Bool
  deriving DecidableEq, Repr

/-- The `handle` function (lines 70-199).  Parameters that live outside the
analysed file are abstracted: `NTTRANS_SUBCOMMAND_TO_STRING` is the fixed
function-code → subcommand-name lookup table and `subCmdHandlers` the
name → handler registry (both from `lib/constants.js` / the startup directory
scan); `SMB_MIN_LENGTH` is the opaque protocol constant; `buf` is `msg.buf`,
the full raw message buffer.  The dead local slices of lines 99-105
(`NT_Trans_Parameters`, `NT_Trans_Data`) are embedded above as standalone
definitions since the source never uses their values.  Logging is omitted. -/
def handle (NTTRANS_SUBCOMMAND_TO_STRING : Nat → Option String)
    (subCmdHandlers : String → Option Handler) (SMB_MIN_LENGTH : Nat)
    (buf commandParams commandData : Buffer) : HandleRun :=
  let msg := decodeNtTransHeader commandParams
  match NTTRANS_SUBCOMMAND_TO_STRING msg.function with
  | none =>
      -- lines 91-95: `self.sendErrorResponse(...)` — `self` is undefined in
      -- this module, so a ReferenceError is thrown and `cb` never runs.
      ⟨HandleOutcome.thrown, false⟩
  | some subCommand =>
      let subParams := subParamsSlice buf msg.parameterOffset msg.parameterCount
      let subData := subDataSlice buf msg.dataOffset msg.dataCount
      if msg.parameterCount < msg.totalParameterCount
          ∨ msg.dataCount < msg.totalDataCount then
        -- lines 112-122: chunked transactions are not reassembled.
        ⟨HandleOutcome.callback
          ⟨STATUS_NOT_IMPLEMENTED, commandParams, commandData⟩, false⟩
      else
        match subCmdHandlers subCommand with
        | some handler =>
            let result := handler subParams subData msg.parameterOffset msg.dataOffset
            if result.status ≠ STATUS_SUCCESS then
              -- lines 130-135: failure echoes the original request buffers.
              ⟨HandleOutcome.callback
                ⟨result.status, commandParams, commandData⟩, true⟩
            else
              let setup := result.setup.getD EMPTY_BUFFER
              let r := buildNtTransResponse SMB_MIN_LENGTH result.params result.data setup
              ⟨HandleOutcome.callback ⟨STATUS_SUCCESS, r.1, r.2⟩, true⟩
        | none =>
            -- lines 190-198: no registered handler for the subcommand.
            ⟨HandleOutcome.callback
              ⟨STATUS_NOT_IMPLEMENTED, commandParams, commandData⟩, false⟩

/-- Test helper: the hand-written reference encoder of the request header
layout (only used to build concrete witness inputs; the source itself only
decodes requests). -/
def encodeHeader (maxSetupCount tpc tdc mpc mdc pc pOff dc dOff sc fn : Nat) : Buffer :=
  [maxSetupCount % 256, 0, 0] ++ leBytes 4 tpc ++ leBytes 4 tdc ++ leBytes 4 mpc
    ++ leBytes 4 mdc ++ leBytes 4 pc ++ leBytes 4 pOff ++ leBytes 4 dc
    ++ leBytes 4 dOff ++ [sc % 256] ++ leBytes 2 fn


/-! Helper lemmas shared by several claims. -/

/-- The little-endian word writer always emits exactly its declared width. -/
theorem leBytes_length (n v : Nat) : (leBytes n v).length = n := by
  induction n generalizing v with
  | zero => rfl
  | succ k ih => simp [leBytes, ih]

/-- A one-byte word write emits the value reduced mod 256. -/
theorem leBytes_one (v : Nat) : leBytes 1 v = [v % 256] := rfl

/-- A clamped slice whose start is at or past the end of the buffer is empty. -/
theorem bufSlice_eq_nil {b : Buffer} {s e : Nat} (h : b.length ≤ s) :
    bufSlice b s e = [] := by
  refine List.drop_eq_nil_of_le ?_
  rw [List.length_take]
  exact le_trans (Nat.min_le_right e b.length) h

/-- Every clamped slice is a contiguous piece of the original buffer:
the buffer splits as a prefix, the slice, and a suffix. -/
theorem bufSlice_decomp (b : Buffer) (s e : Nat) :
    (b.take e).take s ++ bufSlice b s e ++ b.drop e = b := by
  rw [bufSlice, List.take_append_drop, List.take_append_drop]

/-- Once the function code resolves in the lookup table, `handle` continues
with the completeness check, registry lookup and dispatch. -/
theorem handle_resolved (table : Nat → Option String)
    (registry : String → Option Handler) (SMB_MIN_LENGTH : Nat)
    (buf commandParams commandData : Buffer) (name : String)
    (hname : table (decodeNtTransHeader commandParams).function = some name) :
    handle table registry SMB_MIN_LENGTH buf commandParams commandData =
      (let msg := decodeNtTransHeader commandParams
       let subParams := subParamsSlice buf msg.parameterOffset msg.parameterCount
       let subData := subDataSlice buf msg.dataOffset msg.dataCount
       if msg.parameterCount < msg.totalParameterCount
           ∨ msg.dataCount < msg.totalDataCount then
         ⟨HandleOutcome.callback
           ⟨STATUS_NOT_IMPLEMENTED, commandParams, commandData⟩, false⟩
       else
         match registry name with
         | some handler =>
             let result := handler subParams subData msg.parameterOffset msg.dataOffset
             if result.status ≠ STATUS_SUCCESS then
               ⟨HandleOutcome.callback
                 ⟨result.status, commandParams, commandData⟩, true⟩
             else
               let setup := result.setup.getD EMPTY_BUFFER
               let r := buildNtTransResponse SMB_MIN_LENGTH result.params result.data setup
               ⟨HandleOutcome.callback ⟨STATUS_SUCCESS, r.1, r.2⟩, true⟩
         | none =>
             ⟨HandleOutcome.callback
               ⟨STATUS_NOT_IMPLEMENTED, commandParams, commandData⟩, false⟩) := by
  simp only [handle]
  rw [hname]

/-! Claim theorems. -/

/-- C1 (code_bug): on a request whose decoded function code (0xFFFF here) is
absent from the subcommand lookup table, `handle` does not complete with
status BadCommand echoing the request buffers as the spec demands; the
error branch references the undefined identifiers `self` and `callback`, so
a ReferenceError is thrown and `cb` is never invoked. -/
theorem c1_unknown_subcommand_throws :
    handle (fun _ => none) (fun _ => none) 37 []
        (encodeHeader 0 0 0 0 0 0 0 0 0 0 0xFFFF) []
      = ⟨HandleOutcome.thrown, false⟩ := by
  rfl

/-- C2 (amended): no offset validation and no `MalformedOffset` failure
exist; instead the absolute slices clamp to the full message buffer, so they
are always contiguous in-bounds pieces of it and no byte outside the buffer
is ever read. -/
theorem c2_absolute_slices_in_bounds (buf : Buffer)
    (parameterOffset parameterCount dataOffset dataCount : Nat) :
    (∃ pre post,
        buf = pre ++ subParamsSlice buf parameterOffset parameterCount ++ post)
    ∧ (∃ pre post, buf = pre ++ subDataSlice buf dataOffset dataCount ++ post)
    ∧ (subParamsSlice buf parameterOffset parameterCount).length ≤ buf.length
    ∧ (subDataSlice buf dataOffset dataCount).length ≤ buf.length := by
  refine ⟨⟨(buf.take (parameterOffset + parameterCount)).take parameterOffset,
      buf.drop (parameterOffset + parameterCount),
      (bufSlice_decomp buf parameterOffset (parameterOffset + parameterCount)).symm⟩,
    ⟨(buf.take (dataOffset + dataCount)).take dataOffset,
      buf.drop (dataOffset + dataCount),
      (bufSlice_decomp buf dataOffset (dataOffset + dataCount)).symm⟩, ?_, ?_⟩
  · simp only [subParamsSlice, bufSlice, List.length_drop, List.length_take]
    omega
  · simp only [subDataSlice, bufSlice, List.length_drop, List.length_take]
    omega

/-- C2 counterexample: a header declaring `parameterOffset = 100` with
`parameterCount = 4` against a 4-byte message buffer does not fail with
`MalformedOffset` before slicing; processing continues, the subcommand
handler is invoked (on the clamped, empty slice) and its status is
returned. -/
theorem c2_oob_offset_reaches_handler :
    handle (fun c => if c = 1 then some "create" else none)
        (fun n => if n = "create"
          then some (fun _ _ _ _ => SubResult.mk 5 [] [] none) else none)
        37 [1, 2, 3, 4] (encodeHeader 0 4 0 0 0 4 100 0 0 0 1) [9, 9]
      = ⟨HandleOutcome.callback
          ⟨5, encodeHeader 0 4 0 0 0 4 100 0 0 0 1, [9, 9]⟩, true⟩ := by
  rfl

/-- C3 (code_bug): with `commandDataOffset = 2` (pad length 2),
`parameterCount = 4` and `dataCount = 2` against an 8-byte command data
buffer, the local parameter slice is `[12, 13]` (length 2, not the claimed
`parameterCount = 4`) and the local data slice is empty (length 0, not the
claimed `dataCount = 2`), because the source passes the counts to
`Buffer.slice` as END indices instead of lengths. -/
theorem c3_local_slices_wrong_length :
    NT_Trans_Parameters [10, 11, 12, 13, 14, 15, 16, 17] 2 4 = [12, 13]
    ∧ (NT_Trans_Parameters [10, 11, 12, 13, 14, 15, 16, 17] 2 4).length ≠ 4
    ∧ NT_Trans_Data [10, 11, 12, 13, 14, 15, 16, 17] 2 4 2 = []
    ∧ (NT_Trans_Data [10, 11, 12, 13, 14, 15, 16, 17] 2 4 2).length ≠ 2 := by
  refine ⟨rfl, by decide, rfl, by decide⟩

/-- C4 (code_bug): `handle` does not invoke its completion callback exactly
once on every input: on a request whose function code (0x42 here) has no
lookup-table entry, the ReferenceError of the unknown-subcommand branch
escapes and `cb` is invoked zero times. -/
theorem c4_callback_skipped_on_unknown_code :
    handle (fun c => if c = 2 then some "ioctl" else none) (fun _ => none) 37
        [1, 2, 3] (encodeHeader 0 0 0 0 0 0 0 0 0 0 0x42) [4, 5]
      = ⟨HandleOutcome.thrown, false⟩ := by
  rfl

/-- C5 counterexample: decoding an empty parameter buffer — far shorter than
the 38-byte fixed header — does not fail with `TruncatedInput`; the `binary`
parser clamps every read, so the decode completes with every field 0 and an
empty setup slice. -/
theorem c5_empty_params_still_decodes :
    decodeNtTransHeader [] = ⟨0, 0, 0, 0, 0, 0, 0, 0, 0, 0, 0, []⟩ := by
  rfl

/-- C5 (amended): header decoding never fails and never reads out of bounds;
for a truncated buffer each field whose byte range lies wholly past the end
decodes to 0, and the setup slice clamps to the bytes actually present. -/
theorem c5_truncated_decode_zero_fields (b : Buffer) :
    (b.length ≤ 3 → (decodeNtTransHeader b).totalParameterCount = 0)
    ∧ (b.length ≤ 7 → (decodeNtTransHeader b).totalDataCount = 0)
    ∧ (b.length ≤ 11 → (decodeNtTransHeader b).maxParameterCount = 0)
    ∧ (b.length ≤ 15 → (decodeNtTransHeader b).maxDataCount = 0)
    ∧ (b.length ≤ 19 → (decodeNtTransHeader b).parameterCount = 0)
    ∧ (b.length ≤ 23 → (decodeNtTransHeader b).parameterOffset = 0)
    ∧ (b.length ≤ 27 → (decodeNtTransHeader b).dataCount = 0)
    ∧ (b.length ≤ 31 → (decodeNtTransHeader b).dataOffset = 0)
    ∧ (b.length ≤ 35 → (decodeNtTransHeader b).setupCount = 0)
    ∧ (b.length ≤ 36 → (decodeNtTransHeader b).function = 0)
    ∧ (b.length ≤ 38 → (decodeNtTransHeader b).setup = []) := by
  refine ⟨?_, ?_, ?_, ?_, ?_, ?_, ?_, ?_, ?_, ?_, ?_⟩ <;> intro h <;>
    simp [decodeNtTransHeader, readWordLE, bufSlice_eq_nil h, decodeLEu]

/-- C5 witness: the amended decode behaviour evaluated on the concrete
one-byte buffer `[7]`. -/
theorem c5_truncated_decode_zero_fields_witness :
    (decodeNtTransHeader [7]).totalParameterCount = 0
    ∧ (decodeNtTransHeader [7]).totalDataCount = 0
    ∧ (decodeNtTransHeader [7]).maxParameterCount = 0
    ∧ (decodeNtTransHeader [7]).maxDataCount = 0
    ∧ (decodeNtTransHeader [7]).parameterCount = 0
    ∧ (decodeNtTransHeader [7]).parameterOffset = 0
    ∧ (decodeNtTransHeader [7]).dataCount = 0
    ∧ (decodeNtTransHeader [7]).dataOffset = 0
    ∧ (decodeNtTransHeader [7]).setupCount = 0
    ∧ (decodeNtTransHeader [7]).function = 0
    ∧ (decodeNtTransHeader [7]).setup = [] := by
  obtain ⟨h1, h2, h3, h4, h5, h6, h7, h8, h9, h10, h11⟩ :=
    c5_truncated_decode_zero_fields [7]
  exact ⟨h1 (by decide), h2 (by decide), h3 (by decide), h4 (by decide),
    h5 (by decide), h6 (by decide), h7 (by decide), h8 (by decide),
    h9 (by decide), h10 (by decide), h11 (by decide)⟩


/-- C6 counterexample: an incomplete request (parameterCount 10 <
totalParameterCount 20) whose function code 0xFFFF is absent from the lookup
table does not yield the NotImplemented echo the claim demands of every
incomplete request: the unknown-subcommand branch throws first. -/
theorem c6_counterexample_unknown_code_incomplete :
    handle (fun _ => none) (fun _ => none) 37 []
        (encodeHeader 0 20 0 0 0 10 0 0 0 0 0xFFFF) []
      = ⟨HandleOutcome.thrown, false⟩ := by
  rfl

/-- C6 (amended): for every request whose decoded function code is present in
the lookup table, an incomplete transaction (parameterCount <
totalParameterCount or dataCount < totalDataCount), and likewise a resolved
subcommand with no registered handler, completes with status NotImplemented,
response params and data equal to the original commandParams and commandData,
and no subcommand handler is invoked. -/
theorem c6_not_implemented_echoes_original_buffers (table : Nat → Option String)
    (registry : String → Option Handler) (SMB_MIN_LENGTH : Nat)
    (buf commandParams commandData : Buffer) (name : String)
    (hname : table (decodeNtTransHeader commandParams).function = some name)
    (hcase : ((decodeNtTransHeader commandParams).parameterCount
          < (decodeNtTransHeader commandParams).totalParameterCount
        ∨ (decodeNtTransHeader commandParams).dataCount
          < (decodeNtTransHeader commandParams).totalDataCount)
      ∨ registry name = none) :
    handle table registry SMB_MIN_LENGTH buf commandParams commandData =
      ⟨HandleOutcome.callback
        ⟨STATUS_NOT_IMPLEMENTED, commandParams, commandData⟩, false⟩ := by
  rw [handle_resolved table registry SMB_MIN_LENGTH buf commandParams commandData
    name hname]
  rcases hcase with hinc | hreg
  · simp [hinc]
  · by_cases hinc : (decodeNtTransHeader commandParams).parameterCount
        < (decodeNtTransHeader commandParams).totalParameterCount
      ∨ (decodeNtTransHeader commandParams).dataCount
        < (decodeNtTransHeader commandParams).totalDataCount
    · simp [hinc]
    · simp [hinc, hreg]

/-- C6 witness: a resolved subcommand (function code 1) with parameterCount
10 < totalParameterCount 20 and an empty registry yields the NotImplemented
echo without invoking any handler. -/
theorem c6_not_implemented_echoes_original_buffers_witness :
    handle (fun c => if c = 1 then some "create" else none) (fun _ => none) 37 []
        (encodeHeader 0 20 0 0 0 10 0 0 0 0 1) [3, 4]
      = ⟨HandleOutcome.callback
          ⟨STATUS_NOT_IMPLEMENTED, encodeHeader 0 20 0 0 0 10 0 0 0 0 1, [3, 4]⟩,
        false⟩ := by
  exact c6_not_implemented_echoes_original_buffers
    (fun c => if c = 1 then some "create" else none) (fun _ => none) 37 []
    (encodeHeader 0 20 0 0 0 10 0 0 0 0 1) [3, 4] "create" rfl
    (Or.inl (Or.inl (by decide)))

/-- C7 (confirmed): when the dispatched handler completes with a status other
than Success, `handle` forwards that status unchanged and replaces the
response params and data with the original request buffers. -/
theorem c7_failure_status_forwarded_with_original_buffers
    (table : Nat → Option String) (registry : String → Option Handler)
    (SMB_MIN_LENGTH : Nat) (buf commandParams commandData : Buffer)
    (name : String) (handler : Handler) (r : SubResult)
    (hname : table (decodeNtTransHeader commandParams).function = some name)
    (hinc : ¬((decodeNtTransHeader commandParams).parameterCount
          < (decodeNtTransHeader commandParams).totalParameterCount
        ∨ (decodeNtTransHeader commandParams).dataCount
          < (decodeNtTransHeader commandParams).totalDataCount))
    (hreg : registry name = some handler)
    (hres : handler
        (subParamsSlice buf (decodeNtTransHeader commandParams).parameterOffset
          (decodeNtTransHeader commandParams).parameterCount)
        (subDataSlice buf (decodeNtTransHeader commandParams).dataOffset
          (decodeNtTransHeader commandParams).dataCount)
        (decodeNtTransHeader commandParams).parameterOffset
        (decodeNtTransHeader commandParams).dataOffset = r)
    (hstatus : r.status ≠ STATUS_SUCCESS) :
    handle table registry SMB_MIN_LENGTH buf commandParams commandData =
      ⟨HandleOutcome.callback ⟨r.status, commandParams, commandData⟩, true⟩ := by
  rw [handle_resolved table registry SMB_MIN_LENGTH buf commandParams commandData
    name hname]
  simp [hinc, hreg, hres, hstatus]

/-- C7 witness: a registered handler returning status 5 on a complete request
has its status forwarded with the original request buffers. -/
theorem c7_failure_status_forwarded_witness :
    handle (fun c => if c = 1 then some "create" else none)
        (fun n => if n = "create"
          then some (fun _ _ _ _ => SubResult.mk 5 [7] [8] none) else none)
        37 [1, 2, 3, 4] (encodeHeader 0 0 0 0 0 0 0 0 0 0 1) [9]
      = ⟨HandleOutcome.callback ⟨5, encodeHeader 0 0 0 0 0 0 0 0 0 0 1, [9]⟩,
        true⟩ := by
  exact c7_failure_status_forwarded_with_original_buffers
    (fun c => if c = 1 then some "create" else none)
    (fun n => if n = "create"
      then some (fun _ _ _ _ => SubResult.mk 5 [7] [8] none) else none)
    37 [1, 2, 3, 4] (encodeHeader 0 0 0 0 0 0 0 0 0 0 1) [9] "create"
    (fun _ _ _ _ => SubResult.mk 5 [7] [8] none) (SubResult.mk 5 [7] [8] none)
    rfl (by decide) rfl rfl (by decide)

/-- The outgoing parameter buffer, unfolded from the `put` chunk list. -/
theorem buildNtTransResponse_fst (SMB_MIN_LENGTH : Nat) (p d s : Buffer) :
    (buildNtTransResponse SMB_MIN_LENGTH p d s).1
      = List.replicate 3 0 ++ leBytes 4 p.length ++ leBytes 4 d.length
        ++ leBytes 4 p.length
        ++ leBytes 4 (ntTransRespOffsets SMB_MIN_LENGTH p.length s.length).subParamsOffset
        ++ leBytes 4 0 ++ leBytes 4 d.length
        ++ leBytes 4 (ntTransRespOffsets SMB_MIN_LENGTH p.length s.length).subDataOffset
        ++ leBytes 4 0 ++ [s.length % 256] ++ s := by
  simp [buildNtTransResponse, putBuffer, putWordBytes, leBytes_one,
    List.append_assoc]

/-- The outgoing data buffer, unfolded from the `put` chunk list. -/
theorem buildNtTransResponse_snd (SMB_MIN_LENGTH : Nat) (p d s : Buffer) :
    (buildNtTransResponse SMB_MIN_LENGTH p d s).2
      = List.replicate (ntTransRespOffsets SMB_MIN_LENGTH p.length s.length).pad1 0
        ++ p
        ++ List.replicate (ntTransRespOffsets SMB_MIN_LENGTH p.length s.length).pad2 0
        ++ d := by
  simp [buildNtTransResponse, putBuffer, putWordBytes, List.append_assoc]

/-- C8 (confirmed): on a handler result with status Success, params `p`,
data `d` and setup `s` (empty by default), the outgoing parameter buffer is
3 reserved bytes followed by the eight little-endian u32 fields
(totalParameterCount = p.length, totalDataCount = d.length, parameterCount =
p.length, parameterOffset = subParamsOffset, parameterDisplacement = 0,
dataCount = d.length, dataOffset = subDataOffset, dataDisplacement = 0), a
u8 SetupCount byte and the raw setup bytes, and has length exactly
36 + s.length; the outgoing data buffer is pad1 filler, `p` verbatim, pad2
filler, `d` verbatim; the offsets are computed left to right from
dataOffset = SMB_MIN_LENGTH + (36 + s.length). -/
theorem c8_success_response_layout (table : Nat → Option String)
    (registry : String → Option Handler) (SMB_MIN_LENGTH : Nat)
    (buf commandParams commandData : Buffer) (name : String) (handler : Handler)
    (r : SubResult) (s : Buffer)
    (hname : table (decodeNtTransHeader commandParams).function = some name)
    (hinc : ¬((decodeNtTransHeader commandParams).parameterCount
          < (decodeNtTransHeader commandParams).totalParameterCount
        ∨ (decodeNtTransHeader commandParams).dataCount
          < (decodeNtTransHeader commandParams).totalDataCount))
    (hreg : registry name = some handler)
    (hres : handler
        (subParamsSlice buf (decodeNtTransHeader commandParams).parameterOffset
          (decodeNtTransHeader commandParams).parameterCount)
        (subDataSlice buf (decodeNtTransHeader commandParams).dataOffset
          (decodeNtTransHeader commandParams).dataCount)
        (decodeNtTransHeader commandParams).parameterOffset
        (decodeNtTransHeader commandParams).dataOffset = r)
    (hstatus : r.status = STATUS_SUCCESS)
    (hsetup : r.setup.getD EMPTY_BUFFER = s) :
    (let dataOffset := SMB_MIN_LENGTH + (36 + s.length)
     let pad1 := calculatePadLength dataOffset 4
     let subParamsOffset := dataOffset + pad1
     let pad2 := calculatePadLength (subParamsOffset + r.params.length) 4
     let subDataOffset := subParamsOffset + r.params.length + pad2
     let outParams := List.replicate 3 0 ++ leBytes 4 r.params.length
        ++ leBytes 4 r.data.length ++ leBytes 4 r.params.length
        ++ leBytes 4 subParamsOffset ++ leBytes 4 0 ++ leBytes 4 r.data.length
        ++ leBytes 4 subDataOffset ++ leBytes 4 0 ++ [s.length % 256] ++ s
     let outData := List.replicate pad1 0 ++ r.params
        ++ List.replicate pad2 0 ++ r.data
     handle table registry SMB_MIN_LENGTH buf commandParams commandData =
        ⟨HandleOutcome.callback ⟨STATUS_SUCCESS, outParams, outData⟩, true⟩
      ∧ outParams.length = 36 + s.length) := by
  dsimp only
  constructor
  · rw [handle_resolved table registry SMB_MIN_LENGTH buf commandParams
      commandData name hname]
    simp [hinc, hreg, hres, hstatus, hsetup, buildNtTransResponse_fst,
      buildNtTransResponse_snd, ntTransRespOffsets, List.append_assoc]
  · simp only [List.length_append, List.length_replicate, List.length_cons,
      List.length_nil, leBytes_length]

/-- C8 witness: a handler returning Success with params [1,2,3,4], data
[6,7] and no setup, under SMB_MIN_LENGTH = 37, produces the concrete 36-byte
parameter buffer (subParamsOffset 76, subDataOffset 80) and the data buffer
pad1 = 3 zeros, params, pad2 = 0 zeros, data. -/
theorem c8_success_response_layout_witness :
    handle (fun c => if c = 1 then some "create" else none)
        (fun n => if n = "create"
          then some (fun _ _ _ _ =>
            SubResult.mk STATUS_SUCCESS [1, 2, 3, 4] [6, 7] none) else none)
        37 [] (encodeHeader 0 0 0 0 0 0 0 0 0 0 1) []
      = ⟨HandleOutcome.callback
          ⟨STATUS_SUCCESS,
            [0, 0, 0, 4, 0, 0, 0, 2, 0, 0, 0, 4, 0, 0, 0, 76, 0, 0, 0,
              0, 0, 0, 0, 2, 0, 0, 0, 80, 0, 0, 0, 0, 0, 0, 0, 0],
            [0, 0, 0, 1, 2, 3, 4, 6, 7]⟩, true⟩
    ∧ ([0, 0, 0, 4, 0, 0, 0, 2, 0, 0, 0, 4, 0, 0, 0, 76, 0, 0, 0,
        0, 0, 0, 0, 2, 0, 0, 0, 80, 0, 0, 0, 0, 0, 0, 0, 0] : Buffer).length
      = 36 := by
  exact c8_success_response_layout
    (fun c => if c = 1 then some "create" else none)
    (fun n => if n = "create"
      then some (fun _ _ _ _ =>
        SubResult.mk STATUS_SUCCESS [1, 2, 3, 4] [6, 7] none) else none)
    37 [] (encodeHeader 0 0 0 0 0 0 0 0 0 0 1) [] "create"
    (fun _ _ _ _ => SubResult.mk STATUS_SUCCESS [1, 2, 3, 4] [6, 7] none)
    (SubResult.mk STATUS_SUCCESS [1, 2, 3, 4] [6, 7] none) []
    rfl (by decide) rfl rfl rfl rfl

/-- C9 (confirmed): in the response assembly offset computation,
dataOffset ≤ subParamsOffset always, and subParamsOffset < subDataOffset
whenever the params buffer is non-empty. -/
theorem c9_offset_monotonicity (SMB_MIN_LENGTH subParamsLength setupLength : Nat) :
    (ntTransRespOffsets SMB_MIN_LENGTH subParamsLength setupLength).dataOffset
      ≤ (ntTransRespOffsets SMB_MIN_LENGTH subParamsLength setupLength).subParamsOffset
    ∧ (0 < subParamsLength →
        (ntTransRespOffsets SMB_MIN_LENGTH subParamsLength setupLength).subParamsOffset
          < (ntTransRespOffsets SMB_MIN_LENGTH subParamsLength setupLength).subDataOffset) := by
  constructor
  · simp only [ntTransRespOffsets]
    omega
  · intro h
    simp only [ntTransRespOffsets]
    omega

/-- C9 witness: the monotonicity facts at SMB_MIN_LENGTH = 37, params length
4, setup length 0. -/
theorem c9_offset_monotonicity_witness :
    (ntTransRespOffsets 37 4 0).dataOffset ≤ (ntTransRespOffsets 37 4 0).subParamsOffset
    ∧ (ntTransRespOffsets 37 4 0).subParamsOffset
      < (ntTransRespOffsets 37 4 0).subDataOffset := by
  have h := c9_offset_monotonicity 37 4 0
  exact ⟨h.1, h.2 (by decide)⟩

/-- C10 (confirmed): the SetupCount byte (index 35) of the outgoing parameter
buffer is the setup length reduced mod 256 — the one-byte write truncates —
so it equals the setup length exactly when that length is below 256, while
the buffer's total length 36 + n keeps growing with n. -/
theorem c10_setup_count_byte_truncates (SMB_MIN_LENGTH : Nat) (p d s : Buffer) :
    ((buildNtTransResponse SMB_MIN_LENGTH p d s).1)[35]? = some (s.length % 256)
    ∧ (buildNtTransResponse SMB_MIN_LENGTH p d s).1.length = 36 + s.length
    ∧ (((buildNtTransResponse SMB_MIN_LENGTH p d s).1)[35]? = some s.length
        ↔ s.length < 256) := by
  have hP := buildNtTransResponse_fst SMB_MIN_LENGTH p d s
  have hpre : (List.replicate 3 0 ++ leBytes 4 p.length ++ leBytes 4 d.length
      ++ leBytes 4 p.length
      ++ leBytes 4 (ntTransRespOffsets SMB_MIN_LENGTH p.length s.length).subParamsOffset
      ++ leBytes 4 0 ++ leBytes 4 d.length
      ++ leBytes 4 (ntTransRespOffsets SMB_MIN_LENGTH p.length s.length).subDataOffset
      ++ leBytes 4 0).length = 35 := by
    simp [leBytes_length]
  have hP2 : (buildNtTransResponse SMB_MIN_LENGTH p d s).1
      = (List.replicate 3 0 ++ leBytes 4 p.length ++ leBytes 4 d.length
        ++ leBytes 4 p.length
        ++ leBytes 4 (ntTransRespOffsets SMB_MIN_LENGTH p.length s.length).subParamsOffset
        ++ leBytes 4 0 ++ leBytes 4 d.length
        ++ leBytes 4 (ntTransRespOffsets SMB_MIN_LENGTH p.length s.length).subDataOffset
        ++ leBytes 4 0) ++ ((s.length % 256) :: s) := by
    rw [hP]
    simp [List.append_assoc]
  have hbyte : ((buildNtTransResponse SMB_MIN_LENGTH p d s).1)[35]?
      = some (s.length % 256) := by
    rw [hP2, List.getElem?_append_right (le_of_eq hpre), hpre]
    simp
  refine ⟨hbyte, ?_, ?_⟩
  · rw [hP2]
    simp only [List.length_append, List.length_replicate, List.length_cons,
      leBytes_length]
    omega
  · rw [hbyte]
    simp only [Option.some.injEq]
    omega


end NtTransact
